import Mathlib

/-!
Verification of the Amazon sales-report reconciliation pipeline
(`src/pages/another_page.py`, `src/pages/another_page2.py`).

The pandas data frames are embedded shallowly: a frame is a list of rows,
row order is the frame's row order, and the column accesses used by the
program become record fields (for the grouped P&L table) or finite maps
(for the generic grouping code). Monetary values are modelled as rationals.
-/

namespace AmazonReports

/-! ## Reconciler (`another_page.run`, lines 304-329, and `another_page2.run`, lines 33-39)

A combined-transactions row, restricted to the two columns the reconciler
reads: `order id` and `type`. -/

structure Txn where
  orderId : String
  ttype : String
deriving DecidableEq

/-- Source: `valid_types = ["Order"]` (another_page.py line 307). -/
def validTypes : List String := ["Order"]

/-- The match predicate of `another_page.run` lines 318-321:
`combined['order id'].isin(fulfillment_order_ids) & combined['type'].isin(valid_types)`. -/
def matchPred (ids : List String) (t : Txn) : Bool :=
  decide (t.orderId ∈ ids ∧ t.ttype ∈ validTypes)

/-- `matching_transactions` of another_page.py lines 318-321: the rows of the
combined frame satisfying the match predicate, in frame order. -/
def matching_transactions (combined : List Txn) (ids : List String) : List Txn :=
  combined.filter (matchPred ids)

/-- `non_matching_transactions` of another_page.py lines 324-329: the rows NOT
satisfying the match predicate (`~(...)`), in frame order. -/
def non_matching_transactions (combined : List Txn) (ids : List String) : List Txn :=
  combined.filter (fun t => !(matchPred ids t))

/-- `matching_transactions` of another_page2.py lines 34-36: membership of
`order id` in the fulfillment ids only, with no condition on `type`. -/
def matching_transactions2 (combined : List Txn) (ids : List String) : List Txn :=
  combined.filter (fun t => decide (t.orderId ∈ ids))

/-- `non_matching_transactions` of another_page2.py lines 37-39. -/
def non_matching_transactions2 (combined : List Txn) (ids : List String) : List Txn :=
  combined.filter (fun t => !(decide (t.orderId ∈ ids)))

/-- The C2 scenario fixtures: fulfillment ids and the three combined rows. -/
def scenarioIds : List String := ["111", "222"]

def row111 : Txn := ⟨"111", "Order"⟩

def row333 : Txn := ⟨"333", "Order"⟩

def row222 : Txn := ⟨"222", "Refund"⟩

def scenarioCombined : List Txn := [row111, row333, row222]

/-- C1: the reconciler's outputs form an exhaustive, order-preserving
partition of the combined frame: matched and unmatched are subsequences of
the combined frame (relative order kept), each row occurrence lands in
exactly one of the two (counts add up), and no row is in both. -/
theorem reconciler_partition_exact (combined : List Txn) (ids : List String) :
    (matching_transactions combined ids).Sublist combined ∧
    (non_matching_transactions combined ids).Sublist combined ∧
    (∀ r : Txn, (matching_transactions combined ids).count r +
      (non_matching_transactions combined ids).count r = combined.count r) ∧
    (∀ r : Txn, r ∈ matching_transactions combined ids →
      r ∉ non_matching_transactions combined ids) := by
  refine ⟨List.filter_sublist _, List.filter_sublist _, ?_, ?_⟩
  · intro r
    have hperm := List.filter_append_perm (matchPred ids) combined
    have hc := hperm.count_eq r
    rw [List.count_append] at hc
    exact hc
  · intro r hm hn
    simp only [matching_transactions, List.mem_filter] at hm
    simp only [non_matching_transactions, List.mem_filter] at hn
    rw [hm.2] at hn
    simp at hn

/-- Witness for C1 at a concrete input: the matched row ⟨"1", Order⟩ is not
in the unmatched output. -/
theorem reconciler_partition_exact_witness :
    (⟨"1", "Order"⟩ : Txn) ∈ matching_transactions [⟨"1", "Order"⟩] ["1"] ∧
    (⟨"1", "Order"⟩ : Txn) ∉ non_matching_transactions [⟨"1", "Order"⟩] ["1"] :=
  ⟨by decide, (reconciler_partition_exact [⟨"1", "Order"⟩] ["1"]).2.2.2 _ (by decide)⟩

/-- C2: a row is matched iff its `type` is "Order" and its `order id` is
among the fulfillment `amazon-order-id` values; on the spec's scenario
(ids {111,222}; rows 111/Order, 333/Order, 222/Refund) the matched set is
exactly the 111 row and the unmatched set is the 333 and 222 rows. -/
theorem matched_iff_order_and_fulfilled :
    (∀ (combined : List Txn) (ids : List String) (r : Txn),
      r ∈ matching_transactions combined ids ↔
        r ∈ combined ∧ (r.ttype = "Order" ∧ r.orderId ∈ ids)) ∧
    matching_transactions scenarioCombined scenarioIds = [row111] ∧
    non_matching_transactions scenarioCombined scenarioIds = [row333, row222] := by
  refine ⟨?_, by decide, by decide⟩
  intro combined ids r
  simp only [matching_transactions, List.mem_filter, matchPred, validTypes,
    decide_eq_true_eq, List.mem_singleton]
  tauto

/-- Witness for C2: the iff applied at the scenario's 111 row. -/
theorem matched_iff_order_and_fulfilled_witness :
    row111 ∈ scenarioCombined ∧ (Txn.ttype row111 = "Order" ∧ Txn.orderId row111 ∈ scenarioIds) :=
  (matched_iff_order_and_fulfilled.1 scenarioCombined scenarioIds row111).mp (by decide)

/-- C10: the standalone second page partitions purely by order-id set
membership, with no condition on `type`; in particular a Refund row with a
fulfilled order id is matched there. -/
theorem page2_partition_by_id_only :
    (∀ (combined : List Txn) (ids : List String) (r : Txn),
      r ∈ matching_transactions2 combined ids ↔ r ∈ combined ∧ r.orderId ∈ ids) ∧
    (∀ (combined : List Txn) (ids : List String) (r : Txn),
      r ∈ non_matching_transactions2 combined ids ↔ r ∈ combined ∧ r.orderId ∉ ids) ∧
    matching_transactions2 scenarioCombined scenarioIds = [row111, row222] := by
  refine ⟨?_, ?_, by decide⟩
  · intro combined ids r
    simp [matching_transactions2, List.mem_filter]
  · intro combined ids r
    simp [non_matching_transactions2, List.mem_filter]

/-- Witness for C10: the membership characterization applied at the Refund
row 222, which page 2 classifies as matched despite its type. -/
theorem page2_partition_by_id_only_witness :
    row222 ∈ scenarioCombined ∧ Txn.orderId row222 ∈ scenarioIds :=
  (page2_partition_by_id_only.1 scenarioCombined scenarioIds row222).mp (by decide)

/-! ## Aggregator: the grouped P&L table and its derived metrics
(`another_page.run`, lines 379-434)

A row of the grouped table `df` produced by
`clean_and_summarize_transactions(..., group_by=['type','description','fulfillment'])`,
restricted to the columns the metric formulas read. -/

structure PRow where
  ptype : String
  description : String
  fulfillment : String
  productSales : ℚ
  sellingFees : ℚ
  fbaFees : ℚ
  promotionalRebates : ℚ
  total : ℚ
deriving DecidableEq

/-- `df.loc[mask, col].sum()`: sum of a column over the rows matching a mask. -/
def sumBy (df : List PRow) (p : PRow → Bool) (f : PRow → ℚ) : ℚ :=
  ((df.filter p).map f).sum

/-- `next(iter(df.loc[mask, 'total']), 0)`: the `total` of the first row
matching the mask, or 0 when none does. -/
def firstTotal (df : List PRow) (p : PRow → Bool) : ℚ :=
  (((df.filter p).map PRow.total).head?).getD 0

/-- Line 382. -/
def fbm_sales (df : List PRow) : ℚ :=
  sumBy df (fun r => decide (r.ptype = "Order" ∧ r.fulfillment = "Seller")) PRow.productSales

/-- Line 383. -/
def fba_sales (df : List PRow) : ℚ :=
  sumBy df (fun r => decide (r.ptype = "Order" ∧ r.fulfillment = "Amazon")) PRow.productSales

/-- Line 386. -/
def total_sales (df : List PRow) : ℚ := fbm_sales df + fba_sales df

/-- Line 387: `(fbm_sales / total_sales) if total_sales > 0 else 0`. -/
def fbm_percentage (df : List PRow) : ℚ :=
  if total_sales df > 0 then fbm_sales df / total_sales df else 0

/-- Line 388: `(fba_sales / total_sales) if total_sales > 0 else 0`. -/
def fba_percentage (df : List PRow) : ℚ :=
  if total_sales df > 0 then fba_sales df / total_sales df else 0

/-- Line 390. -/
def fbm_returns (df : List PRow) : ℚ :=
  sumBy df (fun r => decide (r.ptype = "Refund" ∧ r.fulfillment = "Seller")) PRow.productSales

/-- Line 391. -/
def fba_returns (df : List PRow) : ℚ :=
  sumBy df (fun r => decide (r.ptype = "Refund" ∧ r.fulfillment = "Amazon")) PRow.productSales

/-- Line 393. -/
def fbm_commissions (df : List PRow) : ℚ :=
  sumBy df (fun r => decide (r.fulfillment = "Seller")) PRow.sellingFees

/-- Line 394. -/
def fba_commissions (df : List PRow) : ℚ :=
  sumBy df (fun r => decide (r.fulfillment = "Amazon")) PRow.sellingFees

/-- Line 396. -/
def advertising (df : List PRow) : ℚ :=
  sumBy df (fun r => decide (r.description = "Cost of Advertising")) PRow.total

/-- Line 398: `df['fba fees'].sum()`, over all rows. -/
def fba_shipping (df : List PRow) : ℚ := (df.map PRow.fbaFees).sum

/-- The row filter of lines 400-403. -/
def inboundFreightPred (r : PRow) : Bool :=
  decide (r.ptype = "FBA Inventory Fee" ∧
    r.description = "FBA Amazon-Partnered Carrier Shipment Fee")

/-- Lines 400-403: first-or-zero over the inbound-freight filter. -/
def fba_inbound_freight (df : List PRow) : ℚ := firstTotal df inboundFreightPred

/-- Lines 405-407. -/
def service_fees_less_advertising (df : List PRow) : ℚ :=
  sumBy df (fun r => decide (r.ptype = "Service Fee")) PRow.total - advertising df

/-- Line 409. -/
def fbm_shipping_services (df : List PRow) : ℚ :=
  sumBy df (fun r => decide (r.ptype = "Shipping Services")) PRow.total

/-- Line 410. -/
def fba_adjustments (df : List PRow) : ℚ :=
  sumBy df (fun r => decide (r.ptype = "Adjustment")) PRow.total

/-- The row filter of lines 412-415. -/
def storageFeePred (r : PRow) : Bool :=
  decide (r.ptype = "FBA Inventory Fee" ∧ r.description = "FBA storage fee")

/-- Lines 412-415: first-or-zero over the storage-fee filter. -/
def fba_storage_fees (df : List PRow) : ℚ := firstTotal df storageFeePred

/-- Lines 417-419. -/
def fba_inventory_fees_other (df : List PRow) : ℚ :=
  sumBy df (fun r => decide (r.ptype = "FBA Inventory Fee")) PRow.total -
    fba_storage_fees df - fba_inbound_freight df

/-- The row filter of lines 421-424. -/
def liquidationsPred (r : PRow) : Bool :=
  decide (r.ptype = "Liquidations" ∨ r.ptype = "Liquidations Adjustments")

/-- Lines 421-424: first-or-zero over the liquidations filter. -/
def fba_liquidations (df : List PRow) : ℚ := firstTotal df liquidationsPred

/-- The row filter of line 426. -/
def safeTPred (r : PRow) : Bool := decide (r.ptype = "SAFE-T reimbursement")

/-- Line 426: first-or-zero over the SAFE-T filter. -/
def SAFE_T_reimbursement (df : List PRow) : ℚ := firstTotal df safeTPred

/-- Line 428. -/
def fbm_promotional_rebate (df : List PRow) : ℚ :=
  sumBy df (fun r => decide (r.fulfillment = "Seller")) PRow.promotionalRebates

/-- Line 429. -/
def fba_promotional_rebate (df : List PRow) : ℚ :=
  sumBy df (fun r => decide (r.fulfillment = "Amazon")) PRow.promotionalRebates

/-- `df['total'].sum()` (line 431). -/
def totalSum (df : List PRow) : ℚ := (df.map PRow.total).sum

/-- The sum of the eighteen named scalar metrics, as parenthesized on
lines 431-434. -/
def metricsSum (df : List PRow) : ℚ :=
  fbm_sales df + fba_sales df + fbm_returns df + fba_returns df +
    fbm_commissions df + fba_commissions df + advertising df + fba_shipping df +
    fba_inbound_freight df + service_fees_less_advertising df +
    fbm_shipping_services df + fba_adjustments df + fba_storage_fees df +
    fba_inventory_fees_other df + fba_liquidations df + SAFE_T_reimbursement df +
    fbm_promotional_rebate df + fba_promotional_rebate df

/-- Lines 431-434. -/
def total_unaccounted (df : List PRow) : ℚ := totalSum df - metricsSum df

/-- A list filtered by a pointwise-false predicate is empty. -/
lemma filter_eq_nil_of_false {α : Type} (p : α → Bool) (l : List α)
    (h : ∀ x ∈ l, p x = false) : l.filter p = [] := by
  induction l with
  | nil => rfl
  | cons a t ih =>
    rw [List.filter_cons, h a (by simp)]
    exact ih (fun x hx => h x (by simp [hx]))

/-- First-or-zero, no-match case: when no row satisfies the filter the
retrieved value is the default 0. -/
lemma firstTotal_eq_zero (df : List PRow) (p : PRow → Bool)
    (h : ∀ x ∈ df, p x = false) : firstTotal df p = 0 := by
  simp [firstTotal, filter_eq_nil_of_false p df h]

/-- First-or-zero, match case: the value is the `total` of the first
matching row, whatever rows (matching or not) come after it. -/
lemma firstTotal_first (l1 l2 : List PRow) (r : PRow) (p : PRow → Bool)
    (hr : p r = true) (hl1 : ∀ x ∈ l1, p x = false) :
    firstTotal (l1 ++ r :: l2) p = r.total := by
  simp [firstTotal, List.filter_append, filter_eq_nil_of_false p l1 hl1,
    List.filter_cons, hr]

/-- C3: `total_unaccounted` is the grand total of the `total` column minus
the sum of the eighteen named scalar metrics; in particular, when every one
of those metrics is 0 it equals the grand total itself. -/
theorem total_unaccounted_residual (df : List PRow) :
    total_unaccounted df = totalSum df -
      (fbm_sales df + fba_sales df + fbm_returns df + fba_returns df +
        fbm_commissions df + fba_commissions df + advertising df + fba_shipping df +
        fba_inbound_freight df + service_fees_less_advertising df +
        fbm_shipping_services df + fba_adjustments df + fba_storage_fees df +
        fba_inventory_fees_other df + fba_liquidations df + SAFE_T_reimbursement df +
        fbm_promotional_rebate df + fba_promotional_rebate df) ∧
    ((fbm_sales df = 0 ∧ fba_sales df = 0 ∧ fbm_returns df = 0 ∧ fba_returns df = 0 ∧
      fbm_commissions df = 0 ∧ fba_commissions df = 0 ∧ advertising df = 0 ∧
      fba_shipping df = 0 ∧ fba_inbound_freight df = 0 ∧
      service_fees_less_advertising df = 0 ∧ fbm_shipping_services df = 0 ∧
      fba_adjustments df = 0 ∧ fba_storage_fees df = 0 ∧
      fba_inventory_fees_other df = 0 ∧ fba_liquidations df = 0 ∧
      SAFE_T_reimbursement df = 0 ∧ fbm_promotional_rebate df = 0 ∧
      fba_promotional_rebate df = 0) → total_unaccounted df = totalSum df) := by
  refine ⟨rfl, ?_⟩
  intro h
  obtain ⟨h1, h2, h3, h4, h5, h6, h7, h8, h9, h10, h11, h12, h13, h14, h15, h16,
    h17, h18⟩ := h
  simp [total_unaccounted, metricsSum, h1, h2, h3, h4, h5, h6, h7, h8, h9, h10,
    h11, h12, h13, h14, h15, h16, h17, h18]

/-- A one-row grouped table whose type/description match no metric filter and
whose monetary columns are all 0 except `total = 5`. -/
def dfAllZero : List PRow := [⟨"Misc", "x", "none", 0, 0, 0, 0, 5⟩]

/-- Witness for C3: on `dfAllZero` every named metric is 0 and
`total_unaccounted` equals the grand total, which is 5. -/
theorem total_unaccounted_residual_witness :
    (fbm_sales dfAllZero = 0 ∧ fba_sales dfAllZero = 0 ∧ fbm_returns dfAllZero = 0 ∧
      fba_returns dfAllZero = 0 ∧ fbm_commissions dfAllZero = 0 ∧
      fba_commissions dfAllZero = 0 ∧ advertising dfAllZero = 0 ∧
      fba_shipping dfAllZero = 0 ∧ fba_inbound_freight dfAllZero = 0 ∧
      service_fees_less_advertising dfAllZero = 0 ∧
      fbm_shipping_services dfAllZero = 0 ∧ fba_adjustments dfAllZero = 0 ∧
      fba_storage_fees dfAllZero = 0 ∧ fba_inventory_fees_other dfAllZero = 0 ∧
      fba_liquidations dfAllZero = 0 ∧ SAFE_T_reimbursement dfAllZero = 0 ∧
      fbm_promotional_rebate dfAllZero = 0 ∧ fba_promotional_rebate dfAllZero = 0) ∧
    total_unaccounted dfAllZero = totalSum dfAllZero ∧ totalSum dfAllZero = 5 :=
  ⟨by norm_num +decide [fbm_sales, fba_sales, fbm_returns, fba_returns,
      fbm_commissions, fba_commissions, advertising, fba_shipping,
      fba_inbound_freight, service_fees_less_advertising, fbm_shipping_services,
      fba_adjustments, fba_storage_fees, fba_inventory_fees_other,
      fba_liquidations, SAFE_T_reimbursement, fbm_promotional_rebate,
      fba_promotional_rebate, sumBy, firstTotal, inboundFreightPred,
      storageFeePred, liquidationsPred, safeTPred, dfAllZero, List.filter_cons],
   (total_unaccounted_residual dfAllZero).2
     (by norm_num +decide [fbm_sales, fba_sales, fbm_returns, fba_returns,
        fbm_commissions, fba_commissions, advertising, fba_shipping,
        fba_inbound_freight, service_fees_less_advertising, fbm_shipping_services,
        fba_adjustments, fba_storage_fees, fba_inventory_fees_other,
        fba_liquidations, SAFE_T_reimbursement, fbm_promotional_rebate,
        fba_promotional_rebate, sumBy, firstTotal, inboundFreightPred,
        storageFeePred, liquidationsPred, safeTPred, dfAllZero, List.filter_cons]),
   by norm_num +decide [totalSum, dfAllZero]⟩

/-- A grouped table with zero sales on both channels (no Order rows at all). -/
def dfZeroSales : List PRow := [⟨"Adjustment", "x", "none", 0, 0, 0, 0, 7⟩]

/-- Counterexample for C4 as stated: on `dfZeroSales`, `fba_sales = fbm_sales`
(both 0) yet both percentages are 0, not 0.5, because the code's guard is
`total_sales > 0`, not `total_sales ≠ 0`. -/
theorem percentage_equal_sales_not_half_cex :
    fba_sales dfZeroSales = fbm_sales dfZeroSales ∧
    fbm_percentage dfZeroSales ≠ (1 : ℚ) / 2 ∧
    fba_percentage dfZeroSales ≠ (1 : ℚ) / 2 := by
  norm_num +decide [fbm_percentage, fba_percentage, total_sales, fbm_sales,
    fba_sales, sumBy, dfZeroSales, List.filter_cons]

/-- C4 amended: if `fba_sales = fbm_sales` AND their sum is positive, both
percentages are 1/2; if `total_sales = 0`, both percentages are 0 (no
division-by-zero fault). -/
theorem percentage_allocation (df : List PRow) :
    (fba_sales df = fbm_sales df → 0 < total_sales df →
      fbm_percentage df = 1 / 2 ∧ fba_percentage df = 1 / 2) ∧
    (total_sales df = 0 → fbm_percentage df = 0 ∧ fba_percentage df = 0) := by
  constructor
  · intro heq hpos
    have htot : total_sales df = 2 * fbm_sales df := by
      rw [total_sales, heq]; ring
    have hpos2 : (0 : ℚ) < 2 * fbm_sales df := htot ▸ hpos
    have hfbm : (0 : ℚ) < fbm_sales df := by linarith
    constructor
    · have hite : fbm_percentage df = fbm_sales df / total_sales df := by
        simp only [fbm_percentage, gt_iff_lt, if_pos hpos]
      rw [hite, htot, div_eq_div_iff (by linarith) (by norm_num)]
      ring
    · have hite : fba_percentage df = fba_sales df / total_sales df := by
        simp only [fba_percentage, gt_iff_lt, if_pos hpos]
      rw [hite, heq, htot, div_eq_div_iff (by linarith) (by norm_num)]
      ring
  · intro h0
    constructor
    · simp [fbm_percentage, h0]
    · simp [fba_percentage, h0]

/-- A grouped table with equal positive sales on both channels. -/
def dfEqualSales : List PRow :=
  [⟨"Order", "(items)", "Seller", 1, 0, 0, 0, 1⟩,
   ⟨"Order", "(items)", "Amazon", 1, 0, 0, 0, 1⟩]

/-- Witness for the amended C4 at a concrete table with equal positive
channel sales. -/
theorem percentage_allocation_witness :
    fba_sales dfEqualSales = fbm_sales dfEqualSales ∧ 0 < total_sales dfEqualSales ∧
    (fbm_percentage dfEqualSales = 1 / 2 ∧ fba_percentage dfEqualSales = 1 / 2) :=
  ⟨by norm_num +decide [fbm_sales, fba_sales, sumBy, dfEqualSales, List.filter_cons],
   by norm_num +decide [total_sales, fbm_sales, fba_sales, sumBy, dfEqualSales,
     List.filter_cons],
   (percentage_allocation dfEqualSales).1
     (by norm_num +decide [fbm_sales, fba_sales, sumBy, dfEqualSales, List.filter_cons])
     (by norm_num +decide [total_sales, fbm_sales, fba_sales, sumBy, dfEqualSales,
       List.filter_cons])⟩

/-- C5: the four first-or-zero metrics (inbound freight, storage fees,
liquidations, SAFE-T reimbursement) take the `total` of the FIRST row
matching their filter — regardless of what comes after it, so a second
matching row is dropped, not summed — and 0 when no row matches. -/
theorem first_or_zero_metrics (l1 l2 df : List PRow) (r : PRow) :
    (inboundFreightPred r = true → (∀ x ∈ l1, inboundFreightPred x = false) →
      fba_inbound_freight (l1 ++ r :: l2) = r.total) ∧
    ((∀ x ∈ df, inboundFreightPred x = false) → fba_inbound_freight df = 0) ∧
    (storageFeePred r = true → (∀ x ∈ l1, storageFeePred x = false) →
      fba_storage_fees (l1 ++ r :: l2) = r.total) ∧
    ((∀ x ∈ df, storageFeePred x = false) → fba_storage_fees df = 0) ∧
    (liquidationsPred r = true → (∀ x ∈ l1, liquidationsPred x = false) →
      fba_liquidations (l1 ++ r :: l2) = r.total) ∧
    ((∀ x ∈ df, liquidationsPred x = false) → fba_liquidations df = 0) ∧
    (safeTPred r = true → (∀ x ∈ l1, safeTPred x = false) →
      SAFE_T_reimbursement (l1 ++ r :: l2) = r.total) ∧
    ((∀ x ∈ df, safeTPred x = false) → SAFE_T_reimbursement df = 0) :=
  ⟨fun a b => firstTotal_first l1 l2 r inboundFreightPred a b,
   fun h => firstTotal_eq_zero df inboundFreightPred h,
   fun a b => firstTotal_first l1 l2 r storageFeePred a b,
   fun h => firstTotal_eq_zero df storageFeePred h,
   fun a b => firstTotal_first l1 l2 r liquidationsPred a b,
   fun h => firstTotal_eq_zero df liquidationsPred h,
   fun a b => firstTotal_first l1 l2 r safeTPred a b,
   fun h => firstTotal_eq_zero df safeTPred h⟩

/-- Two grouped rows both matching the storage-fee filter, totals 5 then 7. -/
def stRow5 : PRow := ⟨"FBA Inventory Fee", "FBA storage fee", "none", 0, 0, 0, 0, 5⟩

def stRow7 : PRow := ⟨"FBA Inventory Fee", "FBA storage fee", "none", 0, 0, 0, 0, 7⟩

/-- Witness for C5: with two storage-fee rows (totals 5 and 7) the metric is
the first row's 5 — the 7 row is dropped — and inbound freight is 0 when no
row matches its filter. -/
theorem first_or_zero_metrics_witness :
    storageFeePred stRow5 = true ∧
    fba_storage_fees [stRow5, stRow7] = PRow.total stRow5 ∧
    PRow.total stRow5 = 5 ∧
    fba_inbound_freight [stRow5] = 0 :=
  ⟨by decide,
   (first_or_zero_metrics [] [stRow7] [stRow5] stRow5).2.2.1 (by decide) (by decide),
   by decide,
   (first_or_zero_metrics [] [stRow7] [stRow5] stRow5).2.1 (by decide)⟩

/-! ## Report writer: the fixed-cell scalar writes into the Summary sheet
(`another_page.run`, lines 467-490)

Each entry is one `pnl_wb_s1.cell(row, column, value)` call, as
(row, column, value), with `rs = append_row_summary`, `r = append_row`,
`c = append_column`, `col_fbm = 2`, `col_fba = 3`. -/

def summaryCells (df : List PRow) (rs r c : ℕ) : List (ℕ × ℕ × ℚ) :=
  [(rs + 4, 2, fbm_sales df),
   (rs + 4, 3, fba_sales df),
   (rs + 5, 2, fbm_returns df),
   (rs + 5, 3, fba_returns df),
   (rs + 11, 2, fbm_commissions df),
   (rs + 11, 3, fba_commissions df),
   (rs + 12, 2, fbm_percentage df * advertising df),
   (rs + 12, 3, fba_percentage df * advertising df),
   (rs + 13, 3, fba_shipping df),
   (rs + 15, 3, fba_inbound_freight df),
   (r + 26, c + 2, fbm_percentage df * service_fees_less_advertising df),
   (r + 26, c + 3, fba_percentage df * service_fees_less_advertising df),
   (r + 27, c + 2, fbm_shipping_services df),
   (r + 28, c + 3, fba_adjustments df),
   (r + 29, c + 3, fba_storage_fees df),
   (r + 30, c + 3, fba_liquidations df),
   (r + 31, c + 3, fba_inventory_fees_other df),
   (r + 32, c + 2, SAFE_T_reimbursement df),
   (r + 33, c + 2, fbm_promotional_rebate df),
   (r + 33, c + 3, fba_promotional_rebate df),
   (r + 34, c + 2, fbm_percentage df * total_unaccounted df),
   (r + 34, c + 3, fba_percentage df * total_unaccounted df)]

/-- A grouped table on which `advertising = 8` but the sales split is 3/4
FBM vs 1/4 FBA, so the advertising cells receive 6 and 2, not 8. -/
def dfAdvertising : List PRow :=
  [⟨"Order", "(items)", "Seller", 3, 0, 0, 0, 3⟩,
   ⟨"Order", "(items)", "Amazon", 1, 0, 0, 0, 1⟩,
   ⟨"Service Fee", "Cost of Advertising", "none", 0, 0, 0, 0, 8⟩]

/-- Counterexample for C9 as stated: on `dfAdvertising` the `advertising`
scalar is 8, yet no cell of the Summary sheet receives the value 8 — the
advertising cells hold the channel-allocated shares 6 and 2
(`fbm_percentage * advertising`, `fba_percentage * advertising`), so the
scalar is NOT written verbatim. -/
theorem advertising_not_verbatim_cex :
    advertising dfAdvertising = 8 ∧
    fbm_percentage dfAdvertising * advertising dfAdvertising = 6 ∧
    (0 + 12, 2, fbm_percentage dfAdvertising * advertising dfAdvertising) ∈
      summaryCells dfAdvertising 0 0 0 ∧
    (summaryCells dfAdvertising 0 0 0).all
      (fun t => decide (t.2.2 ≠ advertising dfAdvertising)) = true := by
  refine ⟨?_, ?_, ?_, ?_⟩
  · norm_num +decide [advertising, sumBy, dfAdvertising, List.filter_cons]
  · norm_num +decide [advertising, fbm_percentage, total_sales, fbm_sales,
      fba_sales, sumBy, dfAdvertising, List.filter_cons]
  · simp [summaryCells]
  · norm_num +decide [summaryCells, fbm_sales, fba_sales, fbm_returns,
      fba_returns, fbm_commissions, fba_commissions, advertising, fba_shipping,
      fba_inbound_freight, service_fees_less_advertising, fbm_shipping_services,
      fba_adjustments, fba_storage_fees, fba_inventory_fees_other,
      fba_liquidations, SAFE_T_reimbursement, fbm_promotional_rebate,
      fba_promotional_rebate, total_unaccounted, totalSum, metricsSum,
      fbm_percentage, fba_percentage, total_sales, sumBy, firstTotal,
      inboundFreightPred, storageFeePred, liquidationsPred, safeTPred,
      dfAdvertising, List.filter_cons]

/-- C9 amended: every P&L scalar lands in its fixed cell, but only the
sales, returns, commissions, shipping, freight, shipping-services,
adjustments, storage, liquidations, inventory-other, SAFE-T and
promotional-rebate metrics are written verbatim; advertising,
service_fees_less_advertising and total_unaccounted are written as their
channel-percentage-allocated shares instead. -/
theorem summary_cells_layout (df : List PRow) (rs r c : ℕ) :
    (rs + 4, 2, fbm_sales df) ∈ summaryCells df rs r c ∧
    (rs + 4, 3, fba_sales df) ∈ summaryCells df rs r c ∧
    (rs + 5, 2, fbm_returns df) ∈ summaryCells df rs r c ∧
    (rs + 5, 3, fba_returns df) ∈ summaryCells df rs r c ∧
    (rs + 11, 2, fbm_commissions df) ∈ summaryCells df rs r c ∧
    (rs + 11, 3, fba_commissions df) ∈ summaryCells df rs r c ∧
    (rs + 13, 3, fba_shipping df) ∈ summaryCells df rs r c ∧
    (rs + 15, 3, fba_inbound_freight df) ∈ summaryCells df rs r c ∧
    (r + 27, c + 2, fbm_shipping_services df) ∈ summaryCells df rs r c ∧
    (r + 28, c + 3, fba_adjustments df) ∈ summaryCells df rs r c ∧
    (r + 29, c + 3, fba_storage_fees df) ∈ summaryCells df rs r c ∧
    (r + 30, c + 3, fba_liquidations df) ∈ summaryCells df rs r c ∧
    (r + 31, c + 3, fba_inventory_fees_other df) ∈ summaryCells df rs r c ∧
    (r + 32, c + 2, SAFE_T_reimbursement df) ∈ summaryCells df rs r c ∧
    (r + 33, c + 2, fbm_promotional_rebate df) ∈ summaryCells df rs r c ∧
    (r + 33, c + 3, fba_promotional_rebate df) ∈ summaryCells df rs r c ∧
    (rs + 12, 2, fbm_percentage df * advertising df) ∈ summaryCells df rs r c ∧
    (rs + 12, 3, fba_percentage df * advertising df) ∈ summaryCells df rs r c ∧
    (r + 26, c + 2, fbm_percentage df * service_fees_less_advertising df) ∈
      summaryCells df rs r c ∧
    (r + 26, c + 3, fba_percentage df * service_fees_less_advertising df) ∈
      summaryCells df rs r c ∧
    (r + 34, c + 2, fbm_percentage df * total_unaccounted df) ∈ summaryCells df rs r c ∧
    (r + 34, c + 3, fba_percentage df * total_unaccounted df) ∈ summaryCells df rs r c := by
  refine ⟨?_, ?_, ?_, ?_, ?_, ?_, ?_, ?_, ?_, ?_, ?_, ?_, ?_, ?_, ?_, ?_, ?_,
    ?_, ?_, ?_, ?_, ?_⟩ <;> simp [summaryCells]

/-! ## Generic grouped aggregation
(`clean_and_summarize_transactions`, another_page.py lines 36-70)

A pandas cell value: a raw string, a parsed number, a parsed datetime, or
the null marker (NaN/NaT). -/

inductive Val where
  | str : String → Val
  | num : ℚ → Val
  | date : Nat → Val
  | null : Val
deriving DecidableEq

/-- A pandas row of the generic aggregation code: a mapping from column
name to cell value. -/
def Row : Type := String → Val

/-- Splits a character list at a separator; the char-list counterpart of
splitting a string on a one-character delimiter. -/
def splitOnChar (sep : Char) : List Char → List (List Char)
  | [] => [[]]
  | c :: cs =>
    let r := splitOnChar sep cs
    if c = sep then [] :: r
    else
      match r with
      | [] => [[c]]
      | h :: t => (c :: h) :: t

/-- The value of a nonempty all-digit character list. -/
def digitsVal? (cs : List Char) : Option Nat :=
  if !cs.isEmpty && cs.all Char.isDigit then
    some (cs.foldl (fun n ch => n * 10 + (ch.toNat - 48)) 0)
  else none

/-- A decimal-literal parser standing for the numeric parsing inside
`pd.to_numeric`: optional leading minus, digits, optional fractional part. -/
def parseNum (s : String) : Option ℚ :=
  let body := if s.data.head? = some '-' then s.data.tail else s.data
  let sgn : ℚ := if s.data.head? = some '-' then -1 else 1
  match splitOnChar '.' body with
  | [ip] => (digitsVal? ip).map (fun n => sgn * (n : ℚ))
  | [ip, fp] =>
    match digitsVal? ip, digitsVal? fp with
    | some n, some f => some (sgn * ((n : ℚ) + (f : ℚ) / (10 : ℚ) ^ fp.length))
    | _, _ => none
  | _ => none

/-- `Series.replace({',': ''}, regex=True)` (line 59): string cells lose
their commas, non-string cells are untouched. -/
def stripCommasV : Val → Val
  | .str s => .str ⟨s.data.filter (fun ch => !(decide (ch = ',')))⟩
  | v => v

/-- `pd.to_numeric(errors='coerce')` (line 60): numbers kept, parsable
strings parsed, everything else coerced to the null marker. -/
def toNumericV : Val → Val
  | .num q => .num q
  | .str s =>
    match parseNum s with
    | some q => .num q
    | none => .null
  | _ => .null

/-- `fillna(0)` on a numeric column (line 63). -/
def numOrZero : Val → ℚ
  | .num q => q
  | _ => 0

/-- A cleaned numeric cell: comma strip, numeric coercion, null-to-0
(lines 59-63). -/
def cellNum (r : Row) (c : String) : ℚ := numOrZero (toNumericV (stripCommasV (r c)))

/-- The grouping key of a row: the tuple of its values at the `group_by`
columns. -/
def keyTuple (gb : List String) (r : Row) : List Val := gb.map r

/-- Whether pandas `groupby` keeps a row: with the default `dropna=True`,
rows carrying NaN in any grouping column are dropped from the result. -/
def groupKeyNonNull (gb : List String) (r : Row) : Bool :=
  !(decide (Val.null ∈ keyTuple gb r))

/-- `clean_and_summarize_transactions` on its grouping path (lines 51-67):
optional type exclusion (`if exclude_types:` — skipped for an empty list),
per-column cleaning of the `columns_to_sum`, then
`groupby(group_by)[columns_to_sum].sum()`. One output row per distinct
non-null key tuple, carrying the per-column group sums. -/
def group_and_sum (df : List Row) (cols : List String) (excl : List String)
    (gb : List String) : List (List Val × List (String × ℚ)) :=
  let d := if excl.isEmpty then df
    else df.filter (fun r => !(decide (r "type" ∈ excl.map Val.str)))
  let dg := d.filter (groupKeyNonNull gb)
  let ks := (dg.map (keyTuple gb)).dedup
  ks.map (fun k =>
    (k, cols.map (fun c =>
      (c, ((dg.filter (fun r => decide (keyTuple gb r = k))).map
        (fun r => cellNum r c)).sum))))

/-- Splitting a list by a Boolean predicate splits its mapped sum. -/
lemma sum_map_filter_split {α : Type} (p : α → Bool) (v : α → ℚ) (l : List α) :
    ((l.filter p).map v).sum + ((l.filter (fun a => !p a)).map v).sum
      = (l.map v).sum := by
  induction l with
  | nil => simp
  | cons a t ih =>
    cases h : p a
    · simp only [List.filter_cons, h, Bool.not_false, if_true, if_false,
        Bool.false_eq_true, List.map_cons, List.sum_cons]
      rw [← ih]
      ring
    · simp only [List.filter_cons, h, Bool.not_true, if_true, if_false,
        Bool.false_eq_true, List.map_cons, List.sum_cons]
      rw [← ih]
      ring

/-- Rows with one key survive filtering-away of a different key. -/
lemma filter_ne_key {α κ : Type} [DecidableEq κ] (keyOf : α → κ) (k k2 : κ)
    (hne : k2 ≠ k) (l : List α) :
    ((l.filter (fun a => !(decide (keyOf a = k)))).filter
      (fun a => decide (keyOf a = k2)))
      = l.filter (fun a => decide (keyOf a = k2)) := by
  induction l with
  | nil => rfl
  | cons a t ih =>
    by_cases h2 : keyOf a = k2
    · have h1 : ¬(keyOf a = k) := by rw [h2]; exact hne
      simp [List.filter_cons, h1, h2, ih, hne]
    · by_cases h1 : keyOf a = k
      · simp [List.filter_cons, h1, h2, ih, Ne.symm hne]
      · simp [List.filter_cons, h1, h2, ih]

/-- Summing per-group sums over a duplicate-free covering key list gives the
total sum: the heart of the aggregation invariant. -/
lemma sum_over_groups {α κ : Type} [DecidableEq κ] (keyOf : α → κ) (v : α → ℚ)
    (ks : List κ) :
    ∀ l : List α, ks.Nodup → (∀ a ∈ l, keyOf a ∈ ks) →
      (ks.map (fun k => ((l.filter (fun a => decide (keyOf a = k))).map v).sum)).sum
        = (l.map v).sum := by
  induction ks with
  | nil =>
    intro l _ hcov
    cases l with
    | nil => simp
    | cons a t => exact absurd (hcov a (by simp)) (by simp)
  | cons k ks ih =>
    intro l hnd hcov
    have hkn : k ∉ ks := (List.nodup_cons.mp hnd).1
    have hnd2 : ks.Nodup := (List.nodup_cons.mp hnd).2
    have hcov2 : ∀ a ∈ l.filter (fun a => !(decide (keyOf a = k))), keyOf a ∈ ks := by
      intro a ha
      rw [List.mem_filter] at ha
      have hin := hcov a ha.1
      have hnk : ¬(keyOf a = k) := by simpa using ha.2
      rw [List.mem_cons] at hin
      tauto
    have hmap : (ks.map (fun k2 =>
        ((l.filter (fun a => decide (keyOf a = k2))).map v).sum))
        = ks.map (fun k2 =>
          (((l.filter (fun a => !(decide (keyOf a = k)))).filter
            (fun a => decide (keyOf a = k2))).map v).sum) := by
      apply List.map_congr_left
      intro k2 hk2
      have hne : k2 ≠ k := fun he => hkn (he ▸ hk2)
      rw [filter_ne_key keyOf k k2 hne l]
    simp only [List.map_cons, List.sum_cons]
    rw [hmap, ih (l.filter (fun a => !(decide (keyOf a = k)))) hnd2 hcov2]
    exact sum_map_filter_split (fun a => decide (keyOf a = k)) v l

/-- A list on which a predicate holds everywhere is unchanged by filtering. -/
lemma filter_eq_self_of_true {α : Type} (p : α → Bool) (l : List α)
    (h : ∀ a ∈ l, p a = true) : l.filter p = l := by
  induction l with
  | nil => rfl
  | cons a t ih =>
    simp [List.filter_cons, h a (by simp), ih (fun x hx => h x (by simp [hx]))]

/-- Looking a key up in an association list built by tagging each key of a
list with a value finds the value of that key. -/
lemma lookup_map_pair (cols : List String) (f : String → ℚ) (c : String)
    (h : c ∈ cols) :
    List.lookup c (cols.map (fun x => (x, f x))) = some (f c) := by
  induction cols with
  | nil => cases h
  | cons a t ih =>
    by_cases hca : c = a
    · subst hca
      simp [List.lookup]
    · have hct : c ∈ t := by
        rw [List.mem_cons] at h
        tauto
      have hba : (c == a) = false := by
        simp [hca]
      simp [List.lookup, hba, ih hct]

/-- A row whose `type` cell is null but whose `total` cell is 5. -/
def nullKeyRow : Row := fun c => if c = "total" then .num 5 else .null

/-- Counterexample for C6 as stated: grouping `[nullKeyRow]` by `type` drops
the row (pandas `groupby` discards null keys), so the grouped output is
empty and its `total` sum is 0, while the input frame's `total` sum is 5 —
grouping does NOT preserve additive totals on frames with null grouping
keys. -/
theorem group_and_sum_null_key_cex :
    group_and_sum [nullKeyRow] ["total"] [] ["type"] = [] ∧
    ((group_and_sum [nullKeyRow] ["total"] [] ["type"]).map
      (fun g => (List.lookup "total" g.2).getD 0)).sum = 0 ∧
    ([nullKeyRow].map (fun r => cellNum r "total")).sum = 5 := by
  refine ⟨by decide, ?_, ?_⟩
  · norm_num +decide [group_and_sum, groupKeyNonNull, keyTuple, nullKeyRow]
  · norm_num +decide [cellNum, stripCommasV, toNumericV, numOrZero, nullKeyRow]

/-- C6 amended: for every input frame whose rows all carry non-null values
in every grouping column (the callers arrange this by filling nulls before
grouping), every choice of grouping keys, and every sum-column, the sum of
that column over the grouped output of `group_and_sum` (with no type
exclusion) equals its sum over the input frame after null-to-0 coercion. -/
theorem group_and_sum_total_invariant (df : List Row) (gb cols : List String)
    (c : String) (hc : c ∈ cols)
    (hkeys : ∀ r ∈ df, groupKeyNonNull gb r = true) :
    ((group_and_sum df cols [] gb).map
      (fun g => (List.lookup c g.2).getD 0)).sum
      = (df.map (fun r => cellNum r c)).sum := by
  have hdg : df.filter (groupKeyNonNull gb) = df :=
    filter_eq_self_of_true (groupKeyNonNull gb) df hkeys
  simp only [group_and_sum, List.isEmpty_nil, if_true, hdg, List.map_map]
  have hlk : ∀ k ∈ (df.map (keyTuple gb)).dedup,
      ((fun g : List Val × List (String × ℚ) => (List.lookup c g.2).getD 0) ∘
        (fun k => (k, cols.map (fun c2 =>
          (c2, ((df.filter (fun r => decide (keyTuple gb r = k))).map
            (fun r => cellNum r c2)).sum))))) k
        = ((df.filter (fun r => decide (keyTuple gb r = k))).map
            (fun r => cellNum r c)).sum := by
    intro k _
    simp only [Function.comp_apply]
    rw [lookup_map_pair cols
      (fun c2 => ((df.filter (fun r => decide (keyTuple gb r = k))).map
        (fun r => cellNum r c2)).sum) c hc]
    rfl
  rw [List.map_congr_left hlk]
  apply sum_over_groups (keyTuple gb) (fun r => cellNum r c)
    ((df.map (keyTuple gb)).dedup) df (List.nodup_dedup _)
  intro a ha
  rw [List.mem_dedup]
  exact List.mem_map_of_mem (keyTuple gb) ha

/-- Three rows, two sharing the grouping key "A", for the C6 witness. -/
def rowA1 : Row := fun c =>
  if c = "type" then .str "A" else if c = "total" then .num 3 else .null

def rowA2 : Row := fun c =>
  if c = "type" then .str "A" else if c = "total" then .num 4 else .null

def rowB : Row := fun c =>
  if c = "type" then .str "B" else if c = "total" then .num 10 else .null

def dfGroups : List Row := [rowA1, rowA2, rowB]

/-- Witness for the amended C6 at a concrete frame: the grouped `total`
column sums to the input's `total` sum, which is 17. -/
theorem group_and_sum_total_invariant_witness :
    ("total" ∈ ["total"]) ∧
    (∀ r ∈ dfGroups, groupKeyNonNull ["type"] r = true) ∧
    ((group_and_sum dfGroups ["total"] [] ["type"]).map
      (fun g => (List.lookup "total" g.2).getD 0)).sum
      = (dfGroups.map (fun r => cellNum r "total")).sum ∧
    (dfGroups.map (fun r => cellNum r "total")).sum = 17 :=
  ⟨by decide, by decide,
   group_and_sum_total_invariant dfGroups ["type"] ["total"] "total"
     (by decide) (by decide),
   by norm_num +decide [cellNum, stripCommasV, toNumericV, numOrZero, dfGroups,
     rowA1, rowA2, rowB]⟩

/-! ## Report reader with dynamic header detection
(`read_dynamic_header_report`, another_page.py lines 145-166) -/

def lowerChars (s : String) : List Char := s.data.map Char.toLower

/-- Python's `in` on strings: substring containment of the marker in a
(lowercased) line. -/
def containsSub (needle : String) (hay : List Char) : Bool :=
  hay.tails.any (fun t => needle.data.isPrefixOf t)

/-- Line 159: `next(i for i, line in enumerate(lines) if search_string in
line.lower())` — the index of the first line whose lowercase form contains
the marker, none when no line does (StopIteration). -/
def headerIdx (marker : String) : List String → Option Nat
  | [] => none
  | l :: ls =>
    if containsSub marker (lowerChars l) then some 0
    else (headerIdx marker ls).map (fun i => i + 1)

/-- Lines 153-166. On success the report is parsed from the header row
onward (`skiprows=header_row`; the parsed frame is abstracted as the
remaining raw lines). When no line contains the marker, the generator
raises StopIteration — the failure the spec names HeaderNotFoundError —
which the handler catches, surfacing an error message via `st.error`
(first component) and returning an empty frame (second component), so the
report contributes no rows downstream. -/
def read_dynamic_header_report (lines : List String) (marker : String) :
    Option String × List String :=
  match headerIdx marker lines with
  | some i => (none, lines.drop i)
  | none => (some "An error occurred while processing the uploaded file", [])

/-- C7: when no line of the input contains the header marker, the reader
fails — an error message is surfaced and an empty frame results, so the
report's processing is aborted rather than the report being silently
parsed from a wrong header. -/
theorem header_not_found_aborts (lines : List String) (marker : String)
    (h : ∀ l ∈ lines, containsSub marker (lowerChars l) = false) :
    (read_dynamic_header_report lines marker).1
      = some "An error occurred while processing the uploaded file" ∧
    (read_dynamic_header_report lines marker).2 = [] := by
  have hnone : headerIdx marker lines = none := by
    induction lines with
    | nil => rfl
    | cons l ls ih =>
      simp only [headerIdx, h l (by simp)]
      rw [ih (fun x hx => h x (by simp [hx]))]
      rfl
  constructor
  · simp [read_dynamic_header_report, hnone]
  · simp [read_dynamic_header_report, hnone]

/-- Witness for C7 at a concrete marker-free report. -/
theorem header_not_found_aborts_witness :
    (∀ l ∈ ["foo", "1,2,3"], containsSub "date/time" (lowerChars l) = false) ∧
    (read_dynamic_header_report ["foo", "1,2,3"] "date/time").2 = [] :=
  ⟨by decide,
   (header_not_found_aborts ["foo", "1,2,3"] "date/time" (by decide)).2⟩

/-! ## Normalizer (`filter_transactions_by_month_year` lines 85-89, and the
currency cleaning of lines 59-60) -/

def isUpperAZ (c : Char) : Bool := decide ('A' ≤ c) && decide (c ≤ 'Z')

/-- `str.replace(r" [A-Z]{3,4}$", "", regex=True)` (line 86): strips one
trailing space followed by 3 or 4 uppercase letters (greedy, so 4
preferred). -/
def stripTz (s : String) : String :=
  match s.data.reverse with
  | c1 :: c2 :: c3 :: c4 :: c5 :: rest =>
    if isUpperAZ c1 && isUpperAZ c2 && isUpperAZ c3 && isUpperAZ c4 &&
        decide (c5 = ' ') then
      ⟨rest.reverse⟩
    else if isUpperAZ c1 && isUpperAZ c2 && isUpperAZ c3 && decide (c4 = ' ') then
      ⟨(c5 :: rest).reverse⟩
    else s
  | c1 :: c2 :: c3 :: c4 :: rest =>
    if isUpperAZ c1 && isUpperAZ c2 && isUpperAZ c3 && decide (c4 = ' ') then
      ⟨rest.reverse⟩
    else s
  | _ => s

/-- A parser standing for `pd.to_datetime` on "MM/DD/YYYY HH:MM:SS" values,
encoding the six fields into one number; anything else coerces to the null
marker, as with `errors='coerce'`. -/
def parseDateTime (s : String) : Option Nat :=
  match splitOnChar ' ' s.data with
  | [d, t] =>
    match splitOnChar '/' d with
    | [ms, ds, ys] =>
      match splitOnChar ':' t with
      | [hs, mis, ss] =>
        match digitsVal? ms, digitsVal? ds, digitsVal? ys,
            digitsVal? hs, digitsVal? mis, digitsVal? ss with
        | some m, some dd, some y, some h, some mi, some sec =>
          some (((((y * 12 + m) * 31 + dd) * 24 + h) * 60 + mi) * 60 + sec)
        | _, _, _, _, _, _ => none
      | _ => none
    | _ => none
  | _ => none

/-- A pandas column dtype, as far as the normalizer can observe it. -/
inductive Dtype where
  | object
  | datetime64
deriving DecidableEq

/-- A pandas column: its dtype and its cell values. -/
structure Column where
  dtype : Dtype
  vals : List Val
deriving DecidableEq

/-- The per-value effect of `.str.replace` on an object-dtype column:
string entries are stripped, non-string entries become NaN. -/
def strStripTzV : Val → Val
  | .str s => .str (stripTz s)
  | _ => .null

/-- The per-value effect of `pd.to_datetime(errors='coerce')`. -/
def toDatetimeV : Val → Val
  | .str s =>
    match parseDateTime s with
    | some n => .date n
    | none => .null
  | .date n => .date n
  | _ => .null

/-- Lines 85-89 as a column transformation. The `.str` accessor raises
(AttributeError: Can only use .str accessor with string values) on a
non-object column — in particular on the datetime64 column a previous
normalization produced — modelled as the error outcome; on an object
column it strips timezone abbreviations and coerces to datetime64. -/
def normalizeDates (col : Column) : Except String Column :=
  if col.dtype = Dtype.object then
    .ok ⟨Dtype.datetime64, col.vals.map (fun v => toDatetimeV (strStripTzV v))⟩
  else
    .error "Can only use .str accessor with string values"

/-- Lines 59-60: currency normalization of one cell — comma strip, then
numeric coercion. -/
def normalizeCurrencyV (v : Val) : Val := toNumericV (stripCommasV v)

/-- Whether a cell already carries a numeric-column value: a number, or the
NaN of a numeric column. -/
def isNumOrNull : Val → Bool
  | .num _ => true
  | .null => true
  | _ => false

/-- A raw (object-dtype) date column as read from a report. -/
def dateColRaw : Column := ⟨Dtype.object, [.str "11/02/2024 10:15:00 PST"]⟩

/-- The datetime64 column one date-normalization pass yields on
`dateColRaw`. -/
def dateColNorm : Column := ⟨Dtype.datetime64, [.date 65082651300]⟩

/-- Counterexample for C8 as stated: date normalization of the normalized
column `dateColNorm` does not leave it unchanged — it fails with the str
accessor error, because the timezone-strip step cannot run on a datetime64
column. -/
theorem date_normalize_not_idempotent_cex :
    normalizeDates dateColRaw = Except.ok dateColNorm ∧
    normalizeDates dateColNorm
      = Except.error "Can only use .str accessor with string values" ∧
    (Except.error "Can only use .str accessor with string values" :
      Except String Column) ≠ Except.ok dateColNorm := by
  refine ⟨rfl, rfl, ?_⟩
  intro hcontra
  exact Except.noConfusion hcontra

/-- C8 amended: currency normalization (comma strip + numeric coercion) is
idempotent — it leaves every already-numeric cell unchanged — but date
normalization is not: applied to an already-normalized (datetime64-typed)
column it fails with the str accessor error instead of being a no-op. -/
theorem normalization_idempotence (v : Val) (col : Column) :
    (isNumOrNull v = true → normalizeCurrencyV v = v) ∧
    (col.dtype = Dtype.datetime64 →
      normalizeDates col
        = Except.error "Can only use .str accessor with string values") := by
  constructor
  · intro h
    cases v with
    | num q => rfl
    | null => rfl
    | str s => simp [isNumOrNull] at h
    | date n => simp [isNumOrNull] at h
  · intro h
    simp [normalizeDates, h]

/-- Witness for the amended C8: a numeric cell survives currency
normalization unchanged, and the concrete datetime64 column fails date
re-normalization. -/
theorem normalization_idempotence_witness :
    (isNumOrNull (Val.num 3) = true ∧
      normalizeCurrencyV (Val.num 3) = Val.num 3) ∧
    (Column.dtype dateColNorm = Dtype.datetime64 ∧
      normalizeDates dateColNorm
        = Except.error "Can only use .str accessor with string values") :=
  ⟨⟨rfl, (normalization_idempotence (Val.num 3) dateColNorm).1 rfl⟩,
   ⟨rfl, (normalization_idempotence (Val.num 3) dateColNorm).2 rfl⟩⟩

end AmazonReports
